import Mathlib

/-!
Verification development for the email-dispatch worker in `src/main.py`.

The embedding models the program's text values in two ways:
* identity-like fields that are only stored and compared (`status`,
  `processing_by`, `sent_by`, `sent_at`, keys, JSON fields) are Lean `String`s;
* text that the program manipulates character by character (templates,
  subjects, bodies, AI responses) is modelled as `Str := List Char`, with
  executable counterparts of the Python string operations used by the source
  (`in`, `split`, `replace`, `strip`), so that concrete runs evaluate by
  `decide`.

Firebase documents are modelled as association lists keyed by `String`; a
Firebase `update` that lists a key with value `None` deletes the key, so an
absent field and a field set to `None` are both `Option.none` here, matching
the source's `v.get(field) is None` tests.
-/

/-- Python strings under character-level manipulation. -/
abbrev Str := List Char

/-- `strStartsWith s pat`: `s` begins with `pat` (Python `s.startswith(pat)`). -/
def strStartsWith : Str → Str → Bool
  | _, [] => true
  | [], _ :: _ => false
  | c :: cs, d :: ds => c == d && strStartsWith cs ds

/-- `strContains pat s`: `pat in s` in Python (substring test). -/
def strContains (pat : Str) : Str → Bool
  | [] => strStartsWith [] pat
  | c :: rest => strStartsWith (c :: rest) pat || strContains pat rest

/-- Characters up to (not including) the first occurrence of `pat`:
`s.split(pat)[0]` in Python. -/
def takeUntilStr (pat : Str) : Str → Str
  | [] => []
  | c :: rest => if strStartsWith (c :: rest) pat then [] else c :: takeUntilStr pat rest

/-- Characters after the first occurrence of `pat` (everything if none):
composing with `takeUntilStr` gives `s.split(pat)[1]`. -/
def dropThroughStr (pat : Str) : Str → Str
  | [] => []
  | c :: rest =>
    if strStartsWith (c :: rest) pat then (c :: rest).drop pat.length
    else dropThroughStr pat rest

/-- Worker for `replaceStr`: the `Nat` counts matched characters still to skip. -/
def replaceStrAux (pat repl : Str) : Str → Nat → Str
  | [], _ => []
  | _ :: rest, Nat.succ k => replaceStrAux pat repl rest k
  | c :: rest, 0 =>
    if strStartsWith (c :: rest) pat then repl ++ replaceStrAux pat repl rest (pat.length - 1)
    else c :: replaceStrAux pat repl rest 0

/-- Python `s.replace(pat, repl)`: replace every non-overlapping occurrence,
left to right (all patterns in the source are non-empty). -/
def replaceStr (s pat repl : Str) : Str := replaceStrAux pat repl s 0

/-- Whitespace characters stripped by Python `str.strip()` (the ones that can
occur in the source's data). -/
def isSpaceChar (c : Char) : Bool := c == ' ' || c == '\n' || c == '\t' || c == '\r'

/-- Python `s.strip()`. -/
def trimStr (s : Str) : Str :=
  ((s.dropWhile isSpaceChar).reverse.dropWhile isSpaceChar).reverse

/-- One backlog record under `scraped_emails/<key>` (`src/main.py`).  The code
reads `email`, `app_name`, `status`, `processing_by` and writes `status`,
`processing_by`, `sent_by`, `sent_at`.  `lease_timestamp` is an extra document
field never read or written by the code (Firebase partial updates leave
unlisted fields untouched); it is carried so that the spec's lease rules can be
stated against the code. -/
structure Record where
  email : Option String
  app_name : Option Str
  status : Option String
  processing_by : Option String
  sent_by : Option String
  sent_at : Option String
  lease_timestamp : Option Int
deriving DecidableEq

/-- The shared template at `shared_config/email_template`; fields are read with
`config.get('subject', '')` so absence defaults to the empty string. -/
structure Template where
  subject : Option Str
  body : Option Str
deriving DecidableEq

/-- Line 190's per-record condition:
`v.get('status') is None and v.get('processing_by') is None`. -/
def record_eligible (v : Record) : Bool :=
  v.status.isNone && v.processing_by.isNone

/-- Line 190: `next((k for k, v in all_leads.items() if ...), None)`.  Returns
the first eligible entry (key and value; the source returns the key and then
indexes the same dict, which yields the same value since dict keys are
unique). -/
def select_target : List (String × Record) → Option (String × Record)
  | [] => none
  | (k, v) :: rest => if record_eligible v then some (k, v) else select_target rest

/-- Line 195: `leads_ref.child(target_key).update({'processing_by': bot_id})`. -/
def claim_update (bot_id : String) (r : Record) : Record :=
  { r with processing_by := some bot_id }

/-- Line 225: `leads_ref.child(target_key).update({'processing_by': None})`. -/
def release_update (r : Record) : Record :=
  { r with processing_by := none }

/-- Lines 214-219: the success update
`{'status': 'sent', 'sent_at': now, 'sent_by': bot_id, 'processing_by': None}`. -/
def finalize_update (bot_id sent_at : String) (r : Record) : Record :=
  { r with status := some "sent", sent_at := some sent_at,
           sent_by := some bot_id, processing_by := none }

/-- `leads_ref.child(k).update(...)` as seen through a later `leads_ref.get()`:
the entry keyed `k` is replaced, all others are untouched. -/
def update_lead (leads : List (String × Record)) (k : String) (f : Record → Record) :
    List (String × Record) :=
  leads.map fun p => if p.1 = k then (p.1, f p.2) else p

/-- The `|||` delimiter expected in the AI response (line 118). -/
def delimStr : Str := "|||".toList

/-- The `{app_name}` placeholder substituted into the template (lines 201-202). -/
def placeholderStr : Str := "{app_name}".toList

/-- Line 118: `"|||" in text`. -/
def hasDelim (t : Str) : Bool := strContains delimStr t

/-- Lines 119-124: split the AI text on `|||`, strip the `Subject:` / `Body:`
markers, and turn newlines in the body into `<br>` tags.
`parts[0]`/`parts[1]` of Python's `text.split("|||")`. -/
def parse_ai_text (text : Str) : Str × Str :=
  let part0 := takeUntilStr delimStr text
  let part1 := takeUntilStr delimStr (dropThroughStr delimStr text)
  let new_sub := trimStr (replaceStr part0 ("Subject:".toList) [])
  let new_body := replaceStr (trimStr (replaceStr part1 ("Body:".toList) [])) ['\n'] ("<br>".toList)
  (new_sub, new_body)

/-- Lines 80-129, `rewrite_email_with_ai`.  One list entry per credential
attempt (the source loops `range(len(GEMINI_KEYS))` times): `some text` models
a 200 response whose candidate text was extracted, `none` models any transport
error, non-200 status, or missing response field (all swallowed by the
source's `except`).  An empty list models an empty credential pool (the
source's early `if not GEMINI_KEYS` return).  A response without the `|||`
delimiter is skipped exactly like a failed attempt. -/
def rewrite_email_with_ai (original_sub original_body : Str) :
    List (Option Str) → Str × Str
  | [] => (original_sub, original_body)
  | attempt :: rest =>
    match attempt with
    | some text =>
      if hasDelim text then parse_ai_text text
      else rewrite_email_with_ai original_sub original_body rest
    | none => rewrite_email_with_ai original_sub original_body rest

/-- A credential attempt that fails to yield a delimiter-bearing response:
either no text was extracted at all, or the text lacks `|||` (line 118's test
fails).  Such an attempt makes `rewrite_email_with_ai` move on to the next
credential. -/
def attempt_failed : Option Str → Bool
  | none => true
  | some t => !hasDelim t

/-- Outcome of the single `requests.post` inside `call_gas_api` (lines 146-150):
either the call raised (transport error / timeout), or a response arrived with
a status code whose body parses to a JSON object (`Except.ok`) or fails to
parse (`Except.error` with the exception text). -/
inductive HttpResult
  | exn (message : String)
  | resp (code : Nat) (json : Except String (List (String × String)))

instance : DecidableEq (Except String (List (String × String))) := fun a b =>
  match a, b with
  | .ok x, .ok y => decidable_of_iff (x = y) (by simp)
  | .error x, .error y => decidable_of_iff (x = y) (by simp)
  | .ok _, .error _ => isFalse (by simp)
  | .error _, .ok _ => isFalse (by simp)

instance : DecidableEq HttpResult := fun a b =>
  match a, b with
  | .exn x, .exn y => decidable_of_iff (x = y) (by simp)
  | .resp c j, .resp d i => decidable_of_iff (c = d ∧ j = i) (by simp)
  | .exn _, .resp _ _ => isFalse (by simp)
  | .resp _ _, .exn _ => isFalse (by simp)

/-- The request body posted by `call_gas_api` (line 211's payload); `to_addr`
is the payload's `to` field (`to` is reserved in Lean). -/
structure GasPayload where
  action : String
  to_addr : Option String
  subject : Str
  body : Str

/-- Lines 143-150 minus the request body: the parsed result of `call_gas_api`
depends only on the configured URL and the HTTP response.
`none` URL → `{"status": "error", "message": "GAS URL missing"}`;
an exception → `{"status": "error", "message": str(e)}`;
a 200 response → its parsed body (or the error dict if `.json()` raises);
any other status code → `{"status": "error"}`. -/
def gas_result (url : Option String) (http : HttpResult) : List (String × String) :=
  match url with
  | none => [("status", "error"), ("message", "GAS URL missing")]
  | some _ =>
    match http with
    | .exn m => [("status", "error"), ("message", m)]
    | .resp code json =>
      if code = 200 then
        match json with
        | .ok j => j
        | .error e => [("status", "error"), ("message", e)]
      else [("status", "error")]

/-- Lines 143-150, `call_gas_api(payload)`: the payload is the POST body and
does not influence how the response is interpreted. -/
def call_gas_api (url : Option String) (_payload : GasPayload) (http : HttpResult) :
    List (String × String) := gas_result url http

/-- Line 213's success test: `res.get("status") == "success"`. -/
def gas_success (res : List (String × String)) : Bool :=
  List.lookup "status" res == some "success"

/-- The chat messages `email_worker` sends, abstracted to tags. -/
inductive Msg
  | dbError
  | templateMissing
  | started
  | allDone
  | progress (n : Nat)
  | final (n : Nat)
deriving DecidableEq

/-- Observable events of a worker run: a chat message or an `asyncio.sleep`. -/
inductive Ev
  | msg (m : Msg)
  | sleep (secs : Nat)
deriving DecidableEq

/-- Result of a (fuel-bounded) worker run: `exited` when `email_worker`
returned (`flag` is the value of `IS_SENDING` at that point), `outOfFuel` when
the modelled iteration budget ran out while the loop was still going. -/
inductive RunOutcome
  | exited (flag : Bool) (count : Nat) (leads : List (String × Record)) (trace : List Ev)
  | outOfFuel (count : Nat) (leads : List (String × Record)) (trace : List Ev)
deriving DecidableEq

/-- Per-iteration environment inputs of the loop body (lines 186-226):
`keep_running` is the value of `IS_SENDING` read by the `while` test,
`attempts` the AI credential attempts, `http` the dispatch call's HTTP
outcome, `pace` the draw of `random.randint(180, 300)`, `sent_at` the draw of
`datetime.now().isoformat()`, and `uid` the draw of `generate_random_id()`. -/
structure IterEnv where
  keep_running : Bool
  attempts : List (Option Str)
  http : HttpResult
  pace : Nat
  sent_at : String
  uid : Str

/-- Line 209's hidden tracking span appended to the body. -/
def hidden_ref (uid : Str) : Str :=
  ("<br><br><span style=\x27color:transparent;display:none;\x27>Ref: ".toList)
    ++ uid ++ ("</span>".toList)

/-- Lines 186-229, the `while IS_SENDING` loop, one recursive call per
iteration, driven by one `IterEnv` per iteration (running out of `IterEnv`s
means the run is still in progress, not an exit).  Exits model the fall
through to line 228-229 (`IS_SENDING = False` then the final-count message). -/
def worker_loop (bot : String) (tmpl : Template) (gas_url : Option String) :
    List IterEnv → List (String × Record) → Nat → List Ev → RunOutcome
  | [], leads, count, tr => .outOfFuel count leads tr
  | env :: rest, leads, count, tr =>
    if env.keep_running then
      if leads.isEmpty then .exited false count leads (tr ++ [.msg (.final count)])
      else
        match select_target leads with
        | none => .exited false count leads (tr ++ [.msg .allDone, .msg (.final count)])
        | some (k, v) =>
          let leads1 := update_lead leads k (claim_update bot)
          let app_name := v.app_name.getD ("your app".toList)
          let orig_sub := replaceStr (tmpl.subject.getD []) placeholderStr app_name
          let orig_body := replaceStr (tmpl.body.getD []) placeholderStr app_name
          let sb := rewrite_email_with_ai orig_sub orig_body env.attempts
          let final_body := sb.2 ++ hidden_ref env.uid
          let res := call_gas_api gas_url
            { action := "sendEmail", to_addr := v.email, subject := sb.1, body := final_body }
            env.http
          if gas_success res then
            let leads2 := update_lead leads1 k (finalize_update bot env.sent_at)
            let count2 := count + 1
            let tr2 := if count2 % 10 = 0 then tr ++ [.msg (.progress count2)] else tr
            worker_loop bot tmpl gas_url rest leads2 count2 (tr2 ++ [.sleep env.pace])
          else
            worker_loop bot tmpl gas_url rest (update_lead leads1 k release_update) count
              (tr ++ [.sleep 60])
    else .exited false count leads (tr ++ [.msg (.final count)])

/-- Lines 166-229, `email_worker`: the preamble reads the template
(`config_read` is `Except.error` when the store read raised, `Except.ok none`
when the template document is missing/empty), reporting and clearing
`IS_SENDING` on the two early returns, then announces the start and enters the
loop. -/
def email_worker (bot : String) (config_read : Except String (Option Template))
    (gas_url : Option String) (envs : List IterEnv)
    (leads : List (String × Record)) : RunOutcome :=
  match config_read with
  | .error _ => .exited false 0 leads [.msg .dbError]
  | .ok none => .exited false 0 leads [.msg .templateMissing]
  | .ok (some tmpl) => worker_loop bot tmpl gas_url envs leads 0 [.msg .started]

/-- The process-wide control state touched by `button_tap`: the `IS_SENDING`
flag and how many worker jobs have been scheduled on the job queue. -/
structure ControlState where
  is_sending : Bool
  scheduled : Nat
deriving DecidableEq

/-- Lines 243-250, the `btn_start_send` branch: only when `IS_SENDING` is
false, set it true and (if a job queue exists) schedule one `email_worker`
job. -/
def btn_start_send (has_job_queue : Bool) (s : ControlState) : ControlState :=
  if s.is_sending then s
  else
    let s1 : ControlState := { s with is_sending := true }
    if has_job_queue then { s1 with scheduled := s1.scheduled + 1 } else s1

/-- Lines 251-253, the `btn_stop_send` branch. -/
def btn_stop_send (s : ControlState) : ControlState :=
  { s with is_sending := false }

/-- Process-level view of the cooperative (asyncio) interleaving of the
control surface and the worker coroutines: the one `IS_SENDING` flag and the
number of live `email_worker` coroutines (scheduled by `run_once` and not yet
returned or crashed).  Everything runs on one event loop, so transitions
happen one at a time, in any order chosen by the scheduler and the
operator. -/
structure ProcState where
  is_sending : Bool
  live_workers : Nat
deriving DecidableEq

/-- The atomic transitions of the process:
* `tap_start`  — lines 243-250 (with the job queue `main()` always builds):
  if `IS_SENDING` is false, set it true and schedule one `email_worker` job;
  otherwise do nothing;
* `tap_stop`   — lines 251-253: set `IS_SENDING` false;
* `worker_beat`— one iteration of a live worker whose `while IS_SENDING` read
  (line 186) saw true and whose body completed normally (the iteration touches
  records and counters, not this process-level state);
* `worker_exit`— a live worker returns normally: the preamble aborts (lines
  174-181) or the loop ends (lines 186-193), in every case after
  `IS_SENDING = False` (lines 176, 180, 228);
* `worker_crash`— an unguarded store call inside the loop raises — line 187's
  `leads_ref.get()` (unlike the guarded read at line 172) or the bare
  `update` calls at lines 195, 214-219, 225 — killing the coroutine with the
  flag untouched.  Reaching the loop body requires the line-186 read to have
  seen true. -/
inductive ProcEvent
  | tap_start
  | tap_stop
  | worker_beat
  | worker_exit
  | worker_crash
deriving DecidableEq

/-- One transition; `none` when the event is not enabled in state `s`
(no live worker to move). -/
def proc_step (s : ProcState) : ProcEvent → Option ProcState
  | .tap_start =>
    if s.is_sending then some s
    else some { is_sending := true, live_workers := s.live_workers + 1 }
  | .tap_stop => some { s with is_sending := false }
  | .worker_beat =>
    if 1 ≤ s.live_workers ∧ s.is_sending = true then some s else none
  | .worker_exit =>
    if 1 ≤ s.live_workers then
      some { is_sending := false, live_workers := s.live_workers - 1 }
    else none
  | .worker_crash =>
    if 1 ≤ s.live_workers ∧ s.is_sending = true then
      some { s with live_workers := s.live_workers - 1 }
    else none

/-- A finite schedule of transitions, run in order. -/
def proc_run (s : ProcState) : List ProcEvent → Option ProcState
  | [] => some s
  | e :: es =>
    match proc_step s e with
    | none => none
    | some s2 => proc_run s2 es

/-- Modelled from the spec (§4.1), for comparison with the code: the spec's
lease-expiry rule accepts a claimed record when `lease_timestamp` is absent,
unparsable, or older than 5 minutes (300 seconds) relative to `now`
(absence and unparsability coincide in this model: both are `none`).  The
source has no such rule. -/
def spec_lease_expired (now : Int) : Option Int → Bool
  | none => true
  | some t => now - t > 300

/-! ### Helper lemmas -/

theorem record_eligible_iff (v : Record) :
    record_eligible v = true ↔ v.status = none ∧ v.processing_by = none := by
  simp [record_eligible, Option.isNone_iff_eq_none]

theorem select_target_eligible :
    ∀ (leads : List (String × Record)) (k : String) (v : Record),
      select_target leads = some (k, v) → record_eligible v = true := by
  intro leads
  induction leads with
  | nil => intro k v h; simp [select_target] at h
  | cons p rest ih =>
    intro k v h
    obtain ⟨pk, pv⟩ := p
    by_cases hp : record_eligible pv
    · simp [select_target, hp] at h
      obtain ⟨-, h2⟩ := h
      rw [← h2]; exact hp
    · simp [select_target, hp] at h
      exact ih k v h

theorem update_lead_comp (leads : List (String × Record)) (k : String)
    (f g : Record → Record) :
    update_lead (update_lead leads k f) k g = update_lead leads k fun r => g (f r) := by
  induction leads with
  | nil => rfl
  | cons p rest ih =>
    by_cases hp : p.1 = k <;>
      simp [update_lead, hp] at ih ⊢ <;> exact ih

/-! ### C1 -/

/-- C1 (counterexample): a record with a claimant set (`processing_by` non-absent),
status not sent, and an absent `lease_timestamp` should be accepted under the
claimed expiry rule (`spec_lease_expired` holds), yet the selection step
rejects it — the code has no lease-expiry reclamation. -/
theorem c1_counterexample :
    record_eligible
      { email := none, app_name := none, status := none, processing_by := some "w1",
        sent_by := none, sent_at := none, lease_timestamp := none } = false
    ∧ spec_lease_expired 0
        (Record.lease_timestamp
          { email := none, app_name := none, status := none, processing_by := some "w1",
            sent_by := none, sent_at := none, lease_timestamp := none }) = true := by
  decide

/-- C1 (amended): a candidate record with a claimant set (`processing_by`
non-absent) is never accepted by the selection step, whatever its
`lease_timestamp` and the current time; equivalently every selected record has
no claimant.  (The original claim's second half — a record inside the 5-minute
window is never selected — holds, but so does its negation-side: expired or
absent leases are not reclaimed either.) -/
theorem c1_amended (v : Record) (leads : List (String × Record)) (k : String)
    (w : Record) (hv : v.processing_by ≠ none) :
    record_eligible v = false
    ∧ (select_target leads = some (k, w) → w.processing_by = none) := by
  constructor
  · cases hpv : v.processing_by with
    | none => exact absurd hpv hv
    | some b => simp [record_eligible, hpv]
  · intro hsel
    exact ((record_eligible_iff w).mp (select_target_eligible leads k w hsel)).2

/-- C1 (witness). -/
theorem c1_witness :
    (some "w1" : Option String) ≠ none
    ∧ (record_eligible
        { email := none, app_name := none, status := none, processing_by := some "w1",
          sent_by := none, sent_at := none, lease_timestamp := some 0 } = false
      ∧ (select_target
          [("k0", { email := none, app_name := none, status := none, processing_by := none,
                    sent_by := none, sent_at := none, lease_timestamp := none })]
          = some ("k0", { email := none, app_name := none, status := none,
                          processing_by := none, sent_by := none, sent_at := none,
                          lease_timestamp := none })
        → Record.processing_by
            { email := none, app_name := none, status := none, processing_by := none,
              sent_by := none, sent_at := none, lease_timestamp := none } = none)) :=
  ⟨by decide,
   c1_amended
     { email := none, app_name := none, status := none, processing_by := some "w1",
       sent_by := none, sent_at := none, lease_timestamp := some 0 }
     [("k0", { email := none, app_name := none, status := none, processing_by := none,
               sent_by := none, sent_at := none, lease_timestamp := none })]
     "k0"
     { email := none, app_name := none, status := none, processing_by := none,
       sent_by := none, sent_at := none, lease_timestamp := none }
     (by decide)⟩

/-! ### C2 -/

/-- C2 (counterexample): the Claiming step (line 195) writes only
`processing_by`; on a fresh record it leaves the lease timestamp absent, so the
claimant-identity field and the lease timestamp are not set together. -/
theorem c2_counterexample :
    Record.processing_by
      (claim_update "w1"
        { email := none, app_name := none, status := none, processing_by := none,
          sent_by := none, sent_at := none, lease_timestamp := none }) = some "w1"
    ∧ Record.lease_timestamp
      (claim_update "w1"
        { email := none, app_name := none, status := none, processing_by := none,
          sent_by := none, sent_at := none, lease_timestamp := none }) = none := by
  decide

/-- C2 (amended): claim, release and finalize touch only the claimant-identity
field (plus, for finalize, the dispatch outcome fields); none of them ever
writes a lease timestamp — `lease_timestamp` is unchanged by all three, so the
claimant is routinely set while the lease timestamp stays absent. -/
theorem c2_amended (bot ts : String) (r : Record) :
    (claim_update bot r).processing_by = some bot
    ∧ (claim_update bot r).lease_timestamp = r.lease_timestamp
    ∧ (release_update r).processing_by = none
    ∧ (release_update r).lease_timestamp = r.lease_timestamp
    ∧ (finalize_update bot ts r).processing_by = none
    ∧ (finalize_update bot ts r).lease_timestamp = r.lease_timestamp := by
  simp [claim_update, release_update, finalize_update]

/-! ### C4 -/

/-- C4: a record with `status = sent` is terminal for the selector — every
selected record in fact has an absent status (hence never `sent`), and a
finalized record can never satisfy the selection condition again, for any
candidate batch. -/
theorem c4_sent_terminal (leads : List (String × Record)) (k : String) (v : Record)
    (h : select_target leads = some (k, v)) :
    v.status = none ∧ v.status ≠ some "sent"
    ∧ (∀ (r : Record), r.status = some "sent" → record_eligible r = false)
    ∧ (∀ (bot ts : String) (r : Record),
        record_eligible (finalize_update bot ts r) = false) := by
  have hv := (record_eligible_iff v).mp (select_target_eligible leads k v h)
  refine ⟨hv.1, by simp [hv.1], ?_, ?_⟩
  · intro r hr; simp [record_eligible, hr]
  · intro bot ts r; simp [record_eligible, finalize_update]

/-- C4 (witness). -/
theorem c4_witness :
    select_target
      [("k0", { email := none, app_name := none, status := some "sent", processing_by := none,
                sent_by := none, sent_at := none, lease_timestamp := none }),
       ("k1", { email := none, app_name := none, status := none, processing_by := none,
                sent_by := none, sent_at := none, lease_timestamp := none })]
      = some ("k1", { email := none, app_name := none, status := none, processing_by := none,
                      sent_by := none, sent_at := none, lease_timestamp := none })
    ∧ (Record.status
        { email := none, app_name := none, status := none, processing_by := none,
          sent_by := none, sent_at := none, lease_timestamp := none } : Option String) = none :=
  ⟨by decide,
   (c4_sent_terminal
     [("k0", { email := none, app_name := none, status := some "sent", processing_by := none,
               sent_by := none, sent_at := none, lease_timestamp := none }),
      ("k1", { email := none, app_name := none, status := none, processing_by := none,
               sent_by := none, sent_at := none, lease_timestamp := none })]
     "k1"
     { email := none, app_name := none, status := none, processing_by := none,
       sent_by := none, sent_at := none, lease_timestamp := none }
     (by decide)).1⟩

/-! ### C3 -/

/-- C3 (counterexample): on a non-empty candidate page whose only record is
actively claimed, the selector returns no candidate and the loop *stops*
(reports all-done and the final count, exits with the flag cleared) instead of
waiting and returning to fetching. -/
theorem c3_counterexample :
    ([("k0", { email := none, app_name := none, status := none, processing_by := some "w1",
               sent_by := none, sent_at := none, lease_timestamp := none })]
      : List (String × Record)) ≠ []
    ∧ select_target
        [("k0", { email := none, app_name := none, status := none, processing_by := some "w1",
                  sent_by := none, sent_at := none, lease_timestamp := none })] = none
    ∧ worker_loop "B" { subject := some [], body := some [] } none
        [{ keep_running := true, attempts := [], http := HttpResult.exn "e", pace := 200,
           sent_at := "t", uid := [] }]
        [("k0", { email := none, app_name := none, status := none, processing_by := some "w1",
                  sent_by := none, sent_at := none, lease_timestamp := none })] 0 []
      = RunOutcome.exited false 0
          [("k0", { email := none, app_name := none, status := none, processing_by := some "w1",
                    sent_by := none, sent_at := none, lease_timestamp := none })]
          [Ev.msg Msg.allDone, Ev.msg (Msg.final 0)] := by
  decide

/-- C3 (amended): whenever the selector returns no candidate the loop stops
with the flag cleared — on a non-empty page it additionally reports all-done
first, and on an empty page it reports only the final count; it never waits
and returns to fetching. -/
theorem c3_amended (bot : String) (tmpl : Template) (url : Option String)
    (env : IterEnv) (rest : List IterEnv) (leads : List (String × Record))
    (count : Nat) (tr : List Ev) (hrun : env.keep_running = true)
    (hsel : select_target leads = none) :
    (leads ≠ [] → worker_loop bot tmpl url (env :: rest) leads count tr
        = RunOutcome.exited false count leads (tr ++ [Ev.msg Msg.allDone, Ev.msg (Msg.final count)]))
    ∧ (leads = [] → worker_loop bot tmpl url (env :: rest) leads count tr
        = RunOutcome.exited false count leads (tr ++ [Ev.msg (Msg.final count)])) := by
  constructor
  · intro hne
    cases leads with
    | nil => exact absurd rfl hne
    | cons p ps => simp [worker_loop, hrun, hsel]
  · intro he
    subst he
    simp [worker_loop, hrun]

/-- C3 (witness). -/
theorem c3_witness :
    ({ keep_running := true, attempts := [], http := HttpResult.exn "e", pace := 200,
       sent_at := "t", uid := [] } : IterEnv).keep_running = true
    ∧ select_target
        [("k0", { email := none, app_name := none, status := none, processing_by := some "w1",
                  sent_by := none, sent_at := none, lease_timestamp := none })] = none
    ∧ (([("k0", { email := none, app_name := none, status := none, processing_by := some "w1",
                  sent_by := none, sent_at := none, lease_timestamp := none })]
          : List (String × Record)) ≠ []
        → worker_loop "B" { subject := some [], body := some [] } none
            [{ keep_running := true, attempts := [], http := HttpResult.exn "e", pace := 200,
               sent_at := "t", uid := [] }]
            [("k0", { email := none, app_name := none, status := none,
                      processing_by := some "w1", sent_by := none, sent_at := none,
                      lease_timestamp := none })] 0 []
          = RunOutcome.exited false 0
              [("k0", { email := none, app_name := none, status := none,
                        processing_by := some "w1", sent_by := none, sent_at := none,
                        lease_timestamp := none })]
              [Ev.msg Msg.allDone, Ev.msg (Msg.final 0)]) :=
  ⟨rfl, by decide,
   (c3_amended "B" { subject := some [], body := some [] } none
     { keep_running := true, attempts := [], http := HttpResult.exn "e", pace := 200,
       sent_at := "t", uid := [] } []
     [("k0", { email := none, app_name := none, status := none, processing_by := some "w1",
               sent_by := none, sent_at := none, lease_timestamp := none })] 0 []
     rfl (by decide)).1⟩

/-! ### C5 -/

/-- C5: when every credential attempt fails to yield a delimiter-bearing
response — including the empty credential pool — the rewrite returns exactly
the original subject/body pair; in particular, starting from the template text
with the `{app_name}` placeholder substituted, the fallback pair is that
substituted text, unchanged.  (The embedding is a total function: every
failure the source can encounter is a caught attempt failure, never an
exception to the caller.) -/
theorem c5_fallback (tsub tbody app : Str) (attempts : List (Option Str))
    (h : attempts.all attempt_failed = true) :
    rewrite_email_with_ai (replaceStr tsub placeholderStr app)
      (replaceStr tbody placeholderStr app) attempts
      = (replaceStr tsub placeholderStr app, replaceStr tbody placeholderStr app) := by
  have key : ∀ (l : List (Option Str)) (s b : Str), l.all attempt_failed = true →
      rewrite_email_with_ai s b l = (s, b) := by
    intro l
    induction l with
    | nil => intro s b _; rfl
    | cons a rest ih =>
      intro s b hl
      rw [List.all_cons, Bool.and_eq_true] at hl
      obtain ⟨ha, hrest⟩ := hl
      cases a with
      | none =>
        rw [rewrite_email_with_ai]
        exact ih s b hrest
      | some t =>
        have hd : hasDelim t = false := by
          simpa [attempt_failed] using ha
        rw [rewrite_email_with_ai]
        simp only [hd, Bool.false_eq_true, if_false]
        exact ih s b hrest
  exact key attempts _ _ h

/-- C5 (witness). -/
theorem c5_witness :
    ([none, some ("no delimiter".toList)] : List (Option Str)).all attempt_failed = true
    ∧ rewrite_email_with_ai
        (replaceStr ("Hi {app_name}".toList) placeholderStr ("App".toList))
        (replaceStr ("Body {app_name}".toList) placeholderStr ("App".toList))
        [none, some ("no delimiter".toList)]
      = (replaceStr ("Hi {app_name}".toList) placeholderStr ("App".toList),
         replaceStr ("Body {app_name}".toList) placeholderStr ("App".toList)) :=
  ⟨by decide,
   c5_fallback ("Hi {app_name}".toList) ("Body {app_name}".toList) ("App".toList)
     [none, some ("no delimiter".toList)] (by decide)⟩

/-! ### C6 -/

/-- C6: when the dispatch call reports failure for the claimed record, the
iteration applies exactly claim-then-release to that record — which clears
only the claimant field (`processing_by` ends absent, every other field
including `status` and `lease_timestamp` keeps its prior value, so the
selected record is eligible again) — keeps the count unchanged, and sleeps 60
seconds before the next fetch cycle. -/
theorem c6_dispatch_failure (bot : String) (tmpl : Template) (url : Option String)
    (env : IterEnv) (rest : List IterEnv) (leads : List (String × Record))
    (count : Nat) (tr : List Ev) (k : String) (v : Record)
    (hrun : env.keep_running = true)
    (hsel : select_target leads = some (k, v))
    (hfail : gas_success (gas_result url env.http) = false) :
    worker_loop bot tmpl url (env :: rest) leads count tr
      = worker_loop bot tmpl url rest
          (update_lead leads k fun r => release_update (claim_update bot r)) count
          (tr ++ [Ev.sleep 60])
    ∧ (release_update (claim_update bot v)).processing_by = none
    ∧ (release_update (claim_update bot v)).status = v.status
    ∧ (release_update (claim_update bot v)).lease_timestamp = v.lease_timestamp
    ∧ record_eligible (release_update (claim_update bot v)) = true := by
  have hv := (record_eligible_iff v).mp (select_target_eligible leads k v hsel)
  refine ⟨?_, by simp [release_update, claim_update], by simp [release_update, claim_update],
    by simp [release_update, claim_update],
    by simp [record_eligible, release_update, claim_update, hv.1]⟩
  cases leads with
  | nil => simp [select_target] at hsel
  | cons p ps =>
    rw [worker_loop]
    simp only [hrun, if_true, List.isEmpty_cons, Bool.false_eq_true, if_false, hsel,
      call_gas_api, hfail]
    rw [update_lead_comp]

/-- C6 (witness). -/
theorem c6_witness :
    ({ keep_running := true, attempts := [], http := HttpResult.exn "e", pace := 250,
       sent_at := "t", uid := [] } : IterEnv).keep_running = true
    ∧ select_target
        [("k0", { email := none, app_name := none, status := none, processing_by := none,
                  sent_by := none, sent_at := none, lease_timestamp := none })]
      = some ("k0", { email := none, app_name := none, status := none, processing_by := none,
                      sent_by := none, sent_at := none, lease_timestamp := none })
    ∧ gas_success (gas_result none (HttpResult.exn "e")) = false
    ∧ (worker_loop "B" { subject := some [], body := some [] } none
        [{ keep_running := true, attempts := [], http := HttpResult.exn "e", pace := 250,
           sent_at := "t", uid := [] }]
        [("k0", { email := none, app_name := none, status := none, processing_by := none,
                  sent_by := none, sent_at := none, lease_timestamp := none })] 0 []
        = worker_loop "B" { subject := some [], body := some [] } none []
            (update_lead
              [("k0", { email := none, app_name := none, status := none, processing_by := none,
                        sent_by := none, sent_at := none, lease_timestamp := none })]
              "k0" fun r => release_update (claim_update "B" r)) 0 [Ev.sleep 60]
      ∧ (release_update (claim_update "B"
          { email := none, app_name := none, status := none, processing_by := none,
            sent_by := none, sent_at := none, lease_timestamp := none })).processing_by = none
      ∧ (release_update (claim_update "B"
          { email := none, app_name := none, status := none, processing_by := none,
            sent_by := none, sent_at := none, lease_timestamp := none })).status
          = Record.status
            { email := none, app_name := none, status := none, processing_by := none,
              sent_by := none, sent_at := none, lease_timestamp := none }
      ∧ (release_update (claim_update "B"
          { email := none, app_name := none, status := none, processing_by := none,
            sent_by := none, sent_at := none, lease_timestamp := none })).lease_timestamp
          = Record.lease_timestamp
            { email := none, app_name := none, status := none, processing_by := none,
              sent_by := none, sent_at := none, lease_timestamp := none }
      ∧ record_eligible (release_update (claim_update "B"
          { email := none, app_name := none, status := none, processing_by := none,
            sent_by := none, sent_at := none, lease_timestamp := none })) = true) :=
  ⟨rfl, by decide, by decide,
   c6_dispatch_failure "B" { subject := some [], body := some [] } none
     { keep_running := true, attempts := [], http := HttpResult.exn "e", pace := 250,
       sent_at := "t", uid := [] } []
     [("k0", { email := none, app_name := none, status := none, processing_by := none,
               sent_by := none, sent_at := none, lease_timestamp := none })] 0 []
     "k0"
     { email := none, app_name := none, status := none, processing_by := none,
       sent_by := none, sent_at := none, lease_timestamp := none }
     rfl (by decide) (by decide)⟩

/-! ### C7 -/

/-- C7: when the dispatch call reports success for the claimed record, the
iteration applies exactly claim-then-finalize to that record — setting
`status = sent`, recording the dispatching worker (`sent_by`) and a dispatch
timestamp (`sent_at`) and clearing the claimant — increments the count by
exactly one, and sleeps the drawn pacing backoff, which `random.randint(180,
300)` guarantees lies between 180 and 300 seconds. -/
theorem c7_dispatch_success (bot : String) (tmpl : Template) (url : Option String)
    (env : IterEnv) (rest : List IterEnv) (leads : List (String × Record))
    (count : Nat) (tr : List Ev) (k : String) (v : Record)
    (hrun : env.keep_running = true)
    (hsel : select_target leads = some (k, v))
    (hok : gas_success (gas_result url env.http) = true)
    (hlo : 180 ≤ env.pace) (hhi : env.pace ≤ 300) :
    worker_loop bot tmpl url (env :: rest) leads count tr
      = worker_loop bot tmpl url rest
          (update_lead leads k fun r => finalize_update bot env.sent_at (claim_update bot r))
          (count + 1)
          ((if (count + 1) % 10 = 0 then tr ++ [Ev.msg (Msg.progress (count + 1))] else tr)
            ++ [Ev.sleep env.pace])
    ∧ (finalize_update bot env.sent_at (claim_update bot v)).status = some "sent"
    ∧ (finalize_update bot env.sent_at (claim_update bot v)).sent_by = some bot
    ∧ (finalize_update bot env.sent_at (claim_update bot v)).sent_at = some env.sent_at
    ∧ (finalize_update bot env.sent_at (claim_update bot v)).processing_by = none
    ∧ 180 ≤ env.pace ∧ env.pace ≤ 300 := by
  refine ⟨?_, by simp [finalize_update, claim_update], by simp [finalize_update, claim_update],
    by simp [finalize_update, claim_update], by simp [finalize_update, claim_update], hlo, hhi⟩
  cases leads with
  | nil => simp [select_target] at hsel
  | cons p ps =>
    rw [worker_loop]
    simp only [hrun, if_true, List.isEmpty_cons, Bool.false_eq_true, if_false, hsel,
      call_gas_api, hok]
    rw [update_lead_comp]

/-- C7 (witness). -/
theorem c7_witness :
    ({ keep_running := true, attempts := [],
       http := HttpResult.resp 200 (Except.ok [("status", "success")]), pace := 200,
       sent_at := "t0", uid := [] } : IterEnv).keep_running = true
    ∧ select_target
        [("k0", { email := some "a@b", app_name := none, status := none, processing_by := none,
                  sent_by := none, sent_at := none, lease_timestamp := none })]
      = some ("k0", { email := some "a@b", app_name := none, status := none,
                      processing_by := none, sent_by := none, sent_at := none,
                      lease_timestamp := none })
    ∧ gas_success (gas_result (some "u")
        (HttpResult.resp 200 (Except.ok [("status", "success")]))) = true
    ∧ (worker_loop "B" { subject := some [], body := some [] } (some "u")
        [{ keep_running := true, attempts := [],
           http := HttpResult.resp 200 (Except.ok [("status", "success")]), pace := 200,
           sent_at := "t0", uid := [] }]
        [("k0", { email := some "a@b", app_name := none, status := none, processing_by := none,
                  sent_by := none, sent_at := none, lease_timestamp := none })] 0 []
        = worker_loop "B" { subject := some [], body := some [] } (some "u") []
            (update_lead
              [("k0", { email := some "a@b", app_name := none, status := none,
                        processing_by := none, sent_by := none, sent_at := none,
                        lease_timestamp := none })]
              "k0" fun r => finalize_update "B" "t0" (claim_update "B" r)) 1 [Ev.sleep 200]
      ∧ (finalize_update "B" "t0" (claim_update "B"
          { email := some "a@b", app_name := none, status := none, processing_by := none,
            sent_by := none, sent_at := none, lease_timestamp := none })).status = some "sent"
      ∧ (finalize_update "B" "t0" (claim_update "B"
          { email := some "a@b", app_name := none, status := none, processing_by := none,
            sent_by := none, sent_at := none, lease_timestamp := none })).sent_by = some "B"
      ∧ (finalize_update "B" "t0" (claim_update "B"
          { email := some "a@b", app_name := none, status := none, processing_by := none,
            sent_by := none, sent_at := none, lease_timestamp := none })).sent_at = some "t0"
      ∧ (finalize_update "B" "t0" (claim_update "B"
          { email := some "a@b", app_name := none, status := none, processing_by := none,
            sent_by := none, sent_at := none, lease_timestamp := none })).processing_by = none
      ∧ 180 ≤ 200 ∧ 200 ≤ 300) :=
  ⟨rfl, by decide, by decide,
   c7_dispatch_success "B" { subject := some [], body := some [] } (some "u")
     { keep_running := true, attempts := [],
       http := HttpResult.resp 200 (Except.ok [("status", "success")]), pace := 200,
       sent_at := "t0", uid := [] } []
     [("k0", { email := some "a@b", app_name := none, status := none, processing_by := none,
               sent_by := none, sent_at := none, lease_timestamp := none })] 0 []
     "k0"
     { email := some "a@b", app_name := none, status := none, processing_by := none,
       sent_by := none, sent_at := none, lease_timestamp := none }
     rfl (by decide) (by decide) (by decide) (by decide)⟩

/-! ### C8 -/

/-- C8 (counterexample): with the template present but the dispatch credential
(GAS URL) missing and the AI credential pool empty, the run is *not* refused:
the worker announces the start, enters the fetch loop, claims the record,
fails the dispatch (releasing the claim) and backs off 60 seconds — still
running when the modelled iteration budget ends. -/
theorem c8_counterexample :
    email_worker "B" (Except.ok (some { subject := some [], body := some [] })) none
      [{ keep_running := true, attempts := [], http := HttpResult.exn "e", pace := 200,
         sent_at := "t", uid := [] }]
      [("k0", { email := none, app_name := none, status := none, processing_by := none,
                sent_by := none, sent_at := none, lease_timestamp := none })]
    = RunOutcome.outOfFuel 0
        [("k0", { email := none, app_name := none, status := none, processing_by := none,
                  sent_by := none, sent_at := none, lease_timestamp := none })]
        [Ev.msg Msg.started, Ev.sleep 60] := by
  decide

/-- C8 (amended): only a missing template (or a failing template read) is
fatal to starting a run — the worker reports one message, clears the run flag
and returns with the backlog untouched and nothing counted, for every input.
Missing credentials are not fatal: a missing dispatch URL yields per-record
dispatch failures inside the loop, and an empty AI credential pool falls back
to the original text. -/
theorem c8_amended (bot : String) (url : Option String) (envs : List IterEnv)
    (leads : List (String × Record)) (e : String) :
    email_worker bot (Except.ok none) url envs leads
      = RunOutcome.exited false 0 leads [Ev.msg Msg.templateMissing]
    ∧ email_worker bot (Except.error e) url envs leads
      = RunOutcome.exited false 0 leads [Ev.msg Msg.dbError] :=
  ⟨rfl, rfl⟩

/-! ### C9 -/

/-- C9 (counterexample): a 2xx response (201) carrying an explicit success
status is *not* parsed — the client maps every non-200 code, 2xx included, to
the failure outcome. -/
theorem c9_counterexample :
    gas_success (call_gas_api (some "u")
      { action := "sendEmail", to_addr := none, subject := [], body := [] }
      (HttpResult.resp 201 (Except.ok [("status", "success")]))) = false
    ∧ 200 ≤ 201 ∧ 201 < 300 := by
  exact ⟨rfl, by decide, by decide⟩

/-- C9 (amended): the dispatch client yields the failure outcome for a missing
URL, for every transport error, for every response whose status code is not
exactly 200 (2xx or not), and for a 200 response whose body is unparsable;
only a 200 response is parsed, and its outcome is success exactly when the
parsed body's `status` field equals `success` (absent or different values
default to failure).  The client makes a single call — no retry. -/
theorem c9_amended (u m : String) (p : GasPayload) (code : Nat)
    (body : Except String (List (String × String))) (j : List (String × String))
    (http : HttpResult) :
    gas_success (call_gas_api none p http) = false
    ∧ gas_success (call_gas_api (some u) p (HttpResult.exn m)) = false
    ∧ (code ≠ 200 → gas_success (call_gas_api (some u) p (HttpResult.resp code body)) = false)
    ∧ gas_success (call_gas_api (some u) p (HttpResult.resp 200 (Except.error m))) = false
    ∧ (gas_success (call_gas_api (some u) p (HttpResult.resp 200 (Except.ok j))) = true
        ↔ List.lookup "status" j = some "success") := by
  refine ⟨rfl, rfl, ?_, rfl, ?_⟩
  · intro hcode
    simp [call_gas_api, gas_result, hcode, gas_success]
  · simp [call_gas_api, gas_result, gas_success]

/-- C9 (witness). -/
theorem c9_witness :
    (404 ≠ 200)
    ∧ gas_success (call_gas_api (some "u")
        { action := "sendEmail", to_addr := none, subject := [], body := [] }
        (HttpResult.resp 404 (Except.ok [("status", "success")]))) = false :=
  ⟨by decide,
   (c9_amended "u" "m" { action := "sendEmail", to_addr := none, subject := [], body := [] }
     404 (Except.ok [("status", "success")]) [] (HttpResult.exn "x")).2.2.1 (by decide)⟩

/-! ### C10 -/

theorem worker_loop_exited_flag_false :
    ∀ (envs : List IterEnv) (bot : String) (tmpl : Template) (url : Option String)
      (leads leads2 : List (String × Record)) (count c : Nat) (tr tr2 : List Ev) (f : Bool),
      worker_loop bot tmpl url envs leads count tr = RunOutcome.exited f c leads2 tr2 →
      f = false := by
  intro envs
  induction envs with
  | nil =>
    intro bot tmpl url leads leads2 count c tr tr2 f h
    simp only [worker_loop] at h
    exact RunOutcome.noConfusion h
  | cons env rest ih =>
    intro bot tmpl url leads leads2 count c tr tr2 f h
    simp only [worker_loop] at h
    split at h
    · split at h
      · exact ((RunOutcome.exited.injEq _ _ _ _ _ _ _ _).mp h).1.symm
      · split at h
        · exact ((RunOutcome.exited.injEq _ _ _ _ _ _ _ _).mp h).1.symm
        · split at h
          · exact ih _ _ _ _ _ _ _ _ _ _ h
          · exact ih _ _ _ _ _ _ _ _ _ _ h
    · exact ((RunOutcome.exited.injEq _ _ _ _ _ _ _ _).mp h).1.symm

/-- C10 (counterexample): "at most one worker loop per process" fails — from
the idle process, the tap sequence start, stop, start is accepted and ends
with two live worker loops and the flag true: the second start arrives while
the first worker is still running (a run is in progress), yet it schedules a
second job because the stop tap already cleared the flag, and the first worker
keeps iterating on the re-set flag (`worker_beat` stays enabled).  "The worker
clears the flag itself on every exit path" fails too — after a start followed
by a store-read crash at the top of the loop, the worker is gone yet the flag
is still true, so a further start tap schedules nothing. -/
theorem c10_counterexample :
    proc_run { is_sending := false, live_workers := 0 }
        [ProcEvent.tap_start, ProcEvent.tap_stop, ProcEvent.tap_start]
      = some { is_sending := true, live_workers := 2 }
    ∧ proc_step { is_sending := true, live_workers := 2 } ProcEvent.worker_beat
      = some { is_sending := true, live_workers := 2 }
    ∧ proc_run { is_sending := false, live_workers := 0 }
        [ProcEvent.tap_start, ProcEvent.worker_crash]
      = some { is_sending := true, live_workers := 0 }
    ∧ proc_step { is_sending := true, live_workers := 0 } ProcEvent.tap_start
      = some { is_sending := true, live_workers := 0 } := by
  decide

/-- C10 (amended): the start tap schedules a worker job only when the run flag
is currently false and sets the flag true before scheduling, so a second start
tap while the flag is still true schedules nothing and leaves the state
unchanged; every normal worker return — preamble abort or loop exit, i.e.
every enabled `worker_exit` transition and every `exited` outcome of
`email_worker` — clears the flag.  This does not bound the live worker loops
to one per process (a stop tap re-opens the start gate while the previous
worker is still live), and a store-read crash inside the loop ends a worker
with the flag left exactly as it was. -/
theorem c10_amended (q : Bool) (s t : ControlState) (u w1 w2 : ProcState)
    (bot : String) (cfg : Except String (Option Template)) (url : Option String)
    (envs : List IterEnv) (leads leads2 : List (String × Record))
    (f : Bool) (c : Nat) (tr : List Ev)
    (hbusy : s.is_sending = true) :
    btn_start_send q s = s
    ∧ ((btn_start_send q t).scheduled ≠ t.scheduled →
        t.is_sending = false ∧ (btn_start_send q t).is_sending = true)
    ∧ (u.is_sending = true → proc_step u ProcEvent.tap_start = some u)
    ∧ (proc_step u ProcEvent.worker_exit = some w1 → w1.is_sending = false)
    ∧ (proc_step u ProcEvent.worker_crash = some w2 → w2.is_sending = u.is_sending)
    ∧ (email_worker bot cfg url envs leads = RunOutcome.exited f c leads2 tr →
        f = false) := by
  refine ⟨by simp [btn_start_send, hbusy], ?_, ?_, ?_, ?_, ?_⟩
  · intro hsched
    by_cases ht : t.is_sending
    · exact absurd (by simp [btn_start_send, ht]) hsched
    · refine ⟨by simpa using ht, ?_⟩
      cases q <;> simp [btn_start_send, ht]
  · intro hu
    simp [proc_step, hu]
  · intro h
    simp only [proc_step] at h
    split at h
    · injection h with h2
      subst h2
      rfl
    · exact Option.noConfusion h
  · intro h
    simp only [proc_step] at h
    split at h
    · injection h with h2
      subst h2
      rfl
    · exact Option.noConfusion h
  · intro hexit
    cases cfg with
    | error e =>
      simp only [email_worker] at hexit
      exact ((RunOutcome.exited.injEq _ _ _ _ _ _ _ _).mp hexit).1.symm
    | ok o =>
      cases o with
      | none =>
        simp only [email_worker] at hexit
        exact ((RunOutcome.exited.injEq _ _ _ _ _ _ _ _).mp hexit).1.symm
      | some tmpl =>
        simp only [email_worker] at hexit
        exact worker_loop_exited_flag_false envs bot tmpl url leads leads2 0 c
          [Ev.msg Msg.started] tr f hexit

/-- C10 (witness). -/
theorem c10_witness :
    ({ is_sending := true, scheduled := 0 } : ControlState).is_sending = true
    ∧ (btn_start_send true { is_sending := true, scheduled := 0 }
          = { is_sending := true, scheduled := 0 }
      ∧ ((btn_start_send true { is_sending := false, scheduled := 0 }).scheduled
            ≠ ({ is_sending := false, scheduled := 0 } : ControlState).scheduled →
          ({ is_sending := false, scheduled := 0 } : ControlState).is_sending = false
          ∧ (btn_start_send true { is_sending := false, scheduled := 0 }).is_sending = true)
      ∧ (({ is_sending := true, live_workers := 1 } : ProcState).is_sending = true →
          proc_step { is_sending := true, live_workers := 1 } ProcEvent.tap_start
            = some { is_sending := true, live_workers := 1 })
      ∧ (proc_step { is_sending := true, live_workers := 1 } ProcEvent.worker_exit
            = some { is_sending := false, live_workers := 0 } →
          ({ is_sending := false, live_workers := 0 } : ProcState).is_sending = false)
      ∧ (proc_step { is_sending := true, live_workers := 1 } ProcEvent.worker_crash
            = some { is_sending := true, live_workers := 0 } →
          ({ is_sending := true, live_workers := 0 } : ProcState).is_sending
            = ({ is_sending := true, live_workers := 1 } : ProcState).is_sending)
      ∧ (email_worker "B" (Except.ok none) none [] []
            = RunOutcome.exited false 0 [] [Ev.msg Msg.templateMissing] →
          false = false)) :=
  ⟨rfl,
   c10_amended true { is_sending := true, scheduled := 0 }
     { is_sending := false, scheduled := 0 }
     { is_sending := true, live_workers := 1 }
     { is_sending := false, live_workers := 0 }
     { is_sending := true, live_workers := 0 } "B"
     (Except.ok none) none [] [] [] false 0 [Ev.msg Msg.templateMissing] rfl⟩
